import Mathlib

/-!
Verification of the sense-exporter Prometheus collector (exporter.go).

The development shallow-embeds the collector pipeline of `exporter.go`:

* the metric descriptor set is the inductive `MetricName`;
* `callbackContainer.callback` (the stream aggregator) becomes `callback`,
  a pure state-passing function returning the updated container, the list
  of samples written to the output channel, and the `error` value it
  returned (`none` embeds Go `nil`, `some .stop` embeds `realtime.Stop`);
* `(*Collector).Collect` becomes `Collect`, a function of a
  `CollectInput` describing the environment of one collection run (the
  catalog-fetch result, the messages the upstream stream would deliver,
  whether the stream call fails after those messages, and the elapsed
  wall-clock seconds);
* the registration loop of `(*Exporter).ServeHTTP` becomes
  `serveHTTPRegistrations`.

Metric values are embedded as rationals: the collector only moves values
from the stream into samples (and uses the constants 0 and 1), so no
floating-point arithmetic is performed.

The external `realtime.Stream` collaborator (from the sense client
library, not part of this repository) is modelled by `runStream`,
following its contract: the callback is invoked once per received
message, a `realtime.Stop` return tears down the stream and makes the
`Stream` call return nil (success), any other non-nil return or an
upstream failure makes it return an error.
-/

namespace SenseExporter

/-- The eight metric descriptors of the fixed descriptor set
(`upDesc`, `scrapeTimeDesc`, `deviceWattsDesc`, `voltsDesc`, `wattsDesc`,
`hzDesc`, `activeDesc`, `onlineDesc` in exporter.go). -/
inductive MetricName where
  | up
  | scrapeTime
  | deviceWatts
  | volts
  | watts
  | hz
  | active
  | online
deriving DecidableEq, Repr

/-- A `sense.Device` catalog record: identifier plus the metadata used as
labels (`ID`, `Name`, `Type`, `Make`, `Model`). -/
structure Device where
  id : String
  name : String
  type : String
  make : String
  model : String
deriving DecidableEq, Repr

/-- One emitted sample: metric, ordered label values, numeric value.
This embeds one `prometheus.MustNewConstMetric` write to the output
channel. -/
structure Sample where
  metric : MetricName
  labels : List String
  value : Rat
deriving DecidableEq, Repr

/-- A `(device id, watts)` pair of a `realtime.RealtimeUpdate`. -/
structure RtDevice where
  id : String
  w : Rat
deriving DecidableEq, Repr

/-- A `realtime.RealtimeUpdate` message: total watts, frequency,
per-channel voltages and per-device watts. -/
structure RealtimeUpdate where
  w : Rat
  hz : Rat
  voltage : List Rat
  devices : List RtDevice
deriving DecidableEq, Repr

/-- One entry of a `realtime.DeviceStates` message. -/
structure DeviceState where
  deviceID : String
  mode : String
  state : String
deriving DecidableEq, Repr

/-- A `realtime.DeviceStates` message. -/
structure DeviceStates where
  states : List DeviceState
deriving DecidableEq, Repr

/-- A `realtime.Message` delivered to the callback.  The Go type switch
in `callback` handles exactly the two variants `*realtime.RealtimeUpdate`
and `*realtime.DeviceStates`; `otherMessage` stands for every other
implementation of the `realtime.Message` interface, which falls through
the switch untouched. -/
inductive Message where
  | realtimeUpdate (u : RealtimeUpdate)
  | deviceStates (b : DeviceStates)
  | otherMessage
deriving DecidableEq, Repr

/-- The `error` values the aggregator callback can return: the
`realtime.Stop` sentinel or a true error carrying a message. -/
inductive CbErr where
  | stop
  | fail (msg : String)
deriving DecidableEq, Repr

/-- The aggregator state `callbackContainer` of exporter.go: the two
variant flags, the device-metadata lookup built from the catalog
(`devInfo`, a Go map embedded as an association list without duplicate
keys), and the set of device ids already given a watts sample
(`seenWatts`, a Go `map[string]bool` embedded as the list of keys set to
true; only membership is ever consulted). -/
structure callbackContainer where
  gotRealtime : Bool
  gotStates : Bool
  devInfo : List (String × Device)
  seenWatts : List String
deriving DecidableEq, Repr

/-- The Go zero value of `sense.Device`, produced by a lookup miss on the
`devInfo` map. -/
def emptyDevice : Device := ⟨"", "", "", "", ""⟩

/-- Embeds the Go map read `devInfo[id]`: the stored device, or the zero
value when the id is absent. -/
def lookupDev (m : List (String × Device)) (id : String) : Device :=
  (m.lookup id).getD emptyDevice

/-- The label values `d.ID, devInfo[d.ID].Name, devInfo[d.ID].Type,
devInfo[d.ID].Make, devInfo[d.ID].Model` used for the per-device
metrics. -/
def deviceLabels (m : List (String × Device)) (id : String) : List String :=
  [id, (lookupDev m id).name, (lookupDev m id).type,
   (lookupDev m id).make, (lookupDev m id).model]

/-- One Go map store `devInfo[d.ID] = d`: a later store for the same key
overwrites the earlier one. -/
def insertDev (m : List (String × Device)) (d : Device) :
    List (String × Device) :=
  m.filter (fun p => p.1 ≠ d.id) ++ [(d.id, d)]

/-- The loop `for _, d := range devices { devInfo[d.ID] = d }` of
`Collect`. -/
def buildDevInfo (devices : List Device) : List (String × Device) :=
  devices.foldl insertDev []

/-- The result of one callback invocation: updated aggregator state, the
samples written to the channel during the call, and the returned `error`
(`none` = Go `nil`). -/
structure CbResult where
  state : callbackContainer
  samples : List Sample
  err : Option CbErr
deriving DecidableEq, Repr

/-- The stream aggregator `callbackContainer.callback` of exporter.go,
embedded as a pure state-passing function.  Mirrors the Go type switch:
a first `RealtimeUpdate` emits one `device_watts` sample per reported
device (marking each seen), one `monitor_volts` per voltage index with
the index as channel label, one `monitor_watts` and one `monitor_hz`; a
first `DeviceStates` emits one `device_active` and one `device_online`
sample per entry; a repeated variant returns nil at once (the early
`return nil`); after the switch, `realtime.Stop` is returned exactly
when both flags are set. -/
def callback (e : callbackContainer) (msg : Message) : CbResult :=
  match msg with
  | .realtimeUpdate u =>
    if e.gotRealtime then ⟨e, [], none⟩
    else
      let devSamples := u.devices.map fun d =>
        (⟨.deviceWatts, deviceLabels e.devInfo d.id, d.w⟩ : Sample)
      let voltSamples := u.voltage.enum.map fun p =>
        (⟨.volts, [Nat.repr p.1], p.2⟩ : Sample)
      let e' : callbackContainer :=
        { e with gotRealtime := true,
                 seenWatts := e.seenWatts ++ u.devices.map RtDevice.id }
      ⟨e',
       devSamples ++ voltSamples ++ [⟨.watts, [], u.w⟩, ⟨.hz, [], u.hz⟩],
       if e'.gotRealtime && e'.gotStates then some .stop else none⟩
  | .deviceStates b =>
    if e.gotStates then ⟨e, [], none⟩
    else
      let stSamples := b.states.flatMap fun d =>
        [(⟨.active, deviceLabels e.devInfo d.deviceID,
           if d.mode == "active" then 1 else 0⟩ : Sample),
         (⟨.online, deviceLabels e.devInfo d.deviceID,
           if d.state == "online" then 1 else 0⟩ : Sample)]
      let e' : callbackContainer := { e with gotStates := true }
      ⟨e', stSamples,
       if e'.gotRealtime && e'.gotStates then some .stop else none⟩
  | .otherMessage =>
    ⟨e, [], if e.gotRealtime && e.gotStates then some .stop else none⟩

/-- Outcome of one `Stream` call: final aggregator state, all samples
emitted during the call, and whether the call returned a (non-Stop)
error. -/
structure StreamResult where
  state : callbackContainer
  samples : List Sample
  errored : Bool
deriving DecidableEq, Repr

/-- Model of the external `realtime.Stream` collaborator driving the
callback (spec section 6): each message of `msgs` is handed to the
callback in order; a `realtime.Stop` return tears the stream down and
the call returns nil; any other non-nil return aborts with that error;
`tailErr` says whether the stream itself fails (connection drop or
deadline expiry) after delivering all of `msgs`. -/
def runStream (e : callbackContainer) (msgs : List Message)
    (tailErr : Bool) : StreamResult :=
  match msgs with
  | [] => ⟨e, [], tailErr⟩
  | m :: rest =>
    let r := callback e m
    match r.err with
    | none =>
      let r' := runStream r.state rest tailErr
      ⟨r'.state, r.samples ++ r'.samples, r'.errored⟩
    | some .stop => ⟨r.state, r.samples, false⟩
    | some (.fail _) => ⟨r.state, r.samples, true⟩

/-- The environment of one `(*Collector).Collect` run: the result of the
`GetDevices` call (`none` embeds an error return), the messages the
upstream stream would deliver, whether the stream call fails after those
messages, and the elapsed wall-clock seconds of the collection. -/
structure CollectInput where
  catalog : Option (List Device)
  msgs : List Message
  tailErr : Bool
  scrapeSecs : Rat
deriving DecidableEq, Repr

/-- Everything `Collect` produces: the samples sent to the output channel
in emission order, whether the `Stream` subscription was invoked, and
the final value of the `collectOk` flag. -/
structure CollectResult where
  samples : List Sample
  streamCalled : Bool
  collectOk : Rat
deriving DecidableEq, Repr

/-- The initial `callbackContainer` built by `Collect` for a fetched
catalog. -/
def initCallback (devices : List Device) : callbackContainer :=
  ⟨false, false, buildDevInfo devices, []⟩

/-- The zero-backfill loop at the end of `Collect`: one `device_watts`
sample of value 0 for every catalog device whose id was never marked in
`seenWatts`. -/
def backfillSamples (devInfo : List (String × Device))
    (devices : List Device) (seen : List String) : List Sample :=
  (devices.filter fun d => !(seen.contains d.id)).map fun d =>
    (⟨.deviceWatts, deviceLabels devInfo d.id, 0⟩ : Sample)

/-- `(*Collector).Collect` of exporter.go.  A failed catalog fetch sets
`collectOk` to 0 and returns early (the deferred block still emits `up`
and `scrape_time_seconds`); otherwise the device lookup is built, the
stream is driven through the aggregator, a stream error sets `collectOk`
to 0, unseen catalog devices are backfilled with zero watts, and the
deferred block appends the `up` and `scrape_time_seconds` samples
last. -/
def Collect (inp : CollectInput) : CollectResult :=
  match inp.catalog with
  | none =>
    ⟨[⟨.up, [], 0⟩, ⟨.scrapeTime, [], inp.scrapeSecs⟩], false, 0⟩
  | some devices =>
    let devInfo := buildDevInfo devices
    let r := runStream (initCallback devices) inp.msgs inp.tailErr
    let ok : Rat := if r.errored then 0 else 1
    ⟨r.samples ++ backfillSamples devInfo devices r.state.seenWatts ++
       [⟨.up, [], ok⟩, ⟨.scrapeTime, [], inp.scrapeSecs⟩],
     true, ok⟩

/-- The success of the stream phase of a collection, as the spec states
it: false when the catalog fetch failed (the stream is never opened),
otherwise whether the `Stream` call returned without error. -/
def streamSucceeded (inp : CollectInput) : Bool :=
  match inp.catalog with
  | none => false
  | some devices =>
    !(runStream (initCallback devices) inp.msgs inp.tailErr).errored

/-- The registration pairs produced by the loop of
`(*Exporter).ServeHTTP`: the collectors created so far are accumulated
in `colls`, and each iteration for monitor `m` registers the whole of
`colls` under the registerer wrapped with label `monitor = m`.  A pair
`(m, c)` records that the collector of monitor `c` was registered under
the namespace labelled with monitor `m`. -/
def serveHTTPRegistrations (monitors : List Nat) : List (Nat × Nat) :=
  (monitors.foldl
    (fun acc m =>
      let colls := acc.1 ++ [m]
      (colls, acc.2 ++ colls.map fun c => (m, c)))
    (([] : List Nat), ([] : List (Nat × Nat)))).2

/-- The samples of `l` whose metric is `n`. -/
def metricSamples (n : MetricName) (l : List Sample) : List Sample :=
  l.filter fun s => s.metric == n

/-- The number of samples of `l` whose metric is `n`. -/
def countMetric (n : MetricName) (l : List Sample) : Nat :=
  (metricSamples n l).length

/-- The `device_watts` samples of `l` whose device-id label is `id`. -/
def wattsFor (id : String) (l : List Sample) : List Sample :=
  l.filter fun s => s.metric == .deviceWatts && s.labels.head? == some id

/-- The first `RealtimeUpdate` of a message list: from a state that has
not yet seen the realtime variant, this is exactly the update the
aggregator consumes. -/
def firstRealtime : List Message → Option RealtimeUpdate
  | [] => none
  | .realtimeUpdate u :: _ => some u
  | _ :: rest => firstRealtime rest

/-- Whether the variant of `msg` has already been consumed in state
`e` (true only for the two handled variants). -/
def seenVariant (e : callbackContainer) : Message → Bool
  | .realtimeUpdate _ => e.gotRealtime
  | .deviceStates _ => e.gotStates
  | .otherMessage => false

/-- Every `RealtimeUpdate` in sight reports each device id at most
once. -/
def ruIdsNodup : Message → Prop
  | .realtimeUpdate u => (u.devices.map RtDevice.id).Nodup
  | _ => True

instance decidableRuIdsNodup : ∀ m, Decidable (ruIdsNodup m)
  | .realtimeUpdate u =>
    inferInstanceAs (Decidable ((u.devices.map RtDevice.id).Nodup))
  | .deviceStates _ => isTrue trivial
  | .otherMessage => isTrue trivial

/-! ### General list helpers -/

theorem filter_map_none {α β : Type} (p : β → Bool) (g : α → β)
    (l : List α) (h : ∀ x, p (g x) = false) : (l.map g).filter p = [] := by
  induction l with
  | nil => rfl
  | cons a l ih => simp [List.filter, h, ih]

theorem filter_map_all {α β : Type} (p : β → Bool) (g : α → β)
    (l : List α) (h : ∀ x, p (g x) = true) :
    (l.map g).filter p = l.map g := by
  induction l with
  | nil => rfl
  | cons a l ih => simp [List.filter, h, ih]

theorem filter_map_comm {α β : Type} (p : β → Bool) (g : α → β)
    (l : List α) :
    (l.map g).filter p = (l.filter fun a => p (g a)).map g := by
  induction l with
  | nil => rfl
  | cons a l ih =>
    by_cases h : p (g a) = true
    · simp [List.filter, h, ih]
    · simp only [Bool.not_eq_true] at h
      simp [List.filter, h, ih]

theorem filter_false_of_mem {α : Type} (p : α → Bool) (l : List α)
    (h : ∀ a ∈ l, p a = false) : l.filter p = [] := by
  induction l with
  | nil => rfl
  | cons a l ih =>
    have ha : p a = false := h a (List.mem_cons_self a l)
    have ih' := ih fun x hx => h x (List.mem_cons_of_mem _ hx)
    simp [List.filter_cons, ha, ih']

theorem filter_flatMap {α β : Type} (p : β → Bool) (g : α → List β)
    (l : List α) :
    (l.flatMap g).filter p = l.flatMap fun a => (g a).filter p := by
  induction l with
  | nil => rfl
  | cons a l ih => simp [List.flatMap_cons, List.filter_append, ih]

theorem filter_key_unique {α : Type} (f : α → String) (l : List α)
    (hl : (l.map f).Nodup) (a : α) (ha : a ∈ l) :
    l.filter (fun x => f x == f a) = [a] := by
  induction l with
  | nil => cases ha
  | cons b l ih =>
    simp only [List.map_cons, List.nodup_cons] at hl
    rcases List.mem_cons.mp ha with hab | ha'
    · subst hab
      have htl : l.filter (fun x => f x == f a) = [] := by
        refine filter_false_of_mem _ _ fun x hx => ?_
        have : f x ≠ f a := fun he => hl.1 (he ▸ List.mem_map_of_mem f hx)
        simpa using this
      simp [List.filter, htl]
    · have hfb : f b ≠ f a := by
        intro he
        exact hl.1 (he ▸ List.mem_map_of_mem f ha')
      have hfb' : (f b == f a) = false := by simpa using hfb
      simp [List.filter_cons, hfb', ih hl.2 ha']

theorem filter_key_absent {α : Type} (f : α → String) (l : List α)
    (c : String) (hc : c ∉ l.map f) :
    l.filter (fun x => f x == c) = [] := by
  refine filter_false_of_mem _ _ fun x hx => ?_
  have : f x ≠ c := fun he => hc (he ▸ List.mem_map_of_mem f hx)
  simpa using this

theorem filter_swap {α : Type} (p q : α → Bool) (l : List α) :
    (l.filter p).filter q = (l.filter q).filter p := by
  induction l with
  | nil => rfl
  | cons a l ih =>
    by_cases hp : p a = true <;> by_cases hq : q a = true <;>
      simp only [Bool.not_eq_true] at * <;>
      simp [List.filter, hp, hq, ih]

/-! ### Structural lemmas about the aggregator and the stream run -/

theorem callback_sample_metric (e : callbackContainer) (m : Message)
    (s : Sample) (hs : s ∈ (callback e m).samples) :
    s.metric ≠ .up ∧ s.metric ≠ .scrapeTime := by
  cases m with
  | realtimeUpdate u =>
    by_cases hR : e.gotRealtime
    · simp [callback, hR] at hs
    · simp only [callback, hR, if_neg, Bool.false_eq_true,
        not_false_eq_true, if_false, List.mem_append, List.mem_map] at hs
      rcases hs with (⟨d, _, rfl⟩ | ⟨p, _, rfl⟩) | hs
      · simp
      · simp
      · simp only [List.mem_cons, List.mem_singleton,
          List.not_mem_nil, or_false] at hs
        rcases hs with rfl | rfl
        · simp
        · simp
  | deviceStates b =>
    by_cases hS : e.gotStates
    · simp [callback, hS] at hs
    · simp only [callback, hS, Bool.false_eq_true, not_false_eq_true,
        if_false, List.mem_flatMap] at hs
      rcases hs with ⟨d, _, hsd⟩
      simp only [List.mem_cons, List.mem_singleton,
        List.not_mem_nil, or_false] at hsd
      rcases hsd with rfl | rfl
      · simp
      · simp
  | otherMessage => simp [callback] at hs

theorem runStream_sample_metric (e : callbackContainer)
    (msgs : List Message) (t : Bool) (s : Sample)
    (hs : s ∈ (runStream e msgs t).samples) :
    s.metric ≠ .up ∧ s.metric ≠ .scrapeTime := by
  induction msgs generalizing e with
  | nil => simp [runStream] at hs
  | cons m rest ih =>
    cases herr : (callback e m).err with
    | none =>
      simp only [runStream, herr, List.mem_append] at hs
      rcases hs with hs | hs
      · exact callback_sample_metric e m s hs
      · exact ih _ hs
    | some c =>
      cases c with
      | stop =>
        simp only [runStream, herr] at hs
        exact callback_sample_metric e m s hs
      | fail msg =>
        simp only [runStream, herr] at hs
        exact callback_sample_metric e m s hs

theorem runStream_up_free (e : callbackContainer) (msgs : List Message)
    (t : Bool) : metricSamples .up (runStream e msgs t).samples = [] := by
  refine filter_false_of_mem _ _ fun s hs => ?_
  have h := (runStream_sample_metric e msgs t s hs).1
  simpa using h

theorem runStream_scrape_free (e : callbackContainer)
    (msgs : List Message) (t : Bool) :
    metricSamples .scrapeTime (runStream e msgs t).samples = [] := by
  refine filter_false_of_mem _ _ fun s hs => ?_
  have h := (runStream_sample_metric e msgs t s hs).2
  simpa using h

theorem backfill_up_free (devInfo : List (String × Device))
    (devices : List Device) (seen : List String) :
    metricSamples .up (backfillSamples devInfo devices seen) = [] :=
  filter_map_none _ _ _ fun _ => rfl

theorem backfill_scrape_free (devInfo : List (String × Device))
    (devices : List Device) (seen : List String) :
    metricSamples .scrapeTime (backfillSamples devInfo devices seen) = [] :=
  filter_map_none _ _ _ fun _ => rfl

theorem metricSamples_append (n : MetricName) (l1 l2 : List Sample) :
    metricSamples n (l1 ++ l2) = metricSamples n l1 ++ metricSamples n l2 :=
  List.filter_append _ _

theorem callback_ds_watts_free (e : callbackContainer) (b : DeviceStates) :
    metricSamples .deviceWatts (callback e (.deviceStates b)).samples = [] := by
  refine filter_false_of_mem _ _ fun s hs => ?_
  by_cases hS : e.gotStates
  · simp [callback, hS] at hs
  · simp only [callback, hS, Bool.false_eq_true, not_false_eq_true,
      if_false, List.mem_flatMap] at hs
    rcases hs with ⟨d, _, hsd⟩
    simp only [List.mem_cons, List.mem_singleton, List.not_mem_nil,
      or_false] at hsd
    rcases hsd with rfl | rfl
    · rfl
    · rfl

theorem callback_after_realtime (e : callbackContainer) (m : Message)
    (hR : e.gotRealtime = true) :
    metricSamples .deviceWatts (callback e m).samples = [] ∧
    (callback e m).state.seenWatts = e.seenWatts ∧
    (callback e m).state.devInfo = e.devInfo ∧
    (callback e m).state.gotRealtime = true := by
  cases m with
  | realtimeUpdate u => simp [callback, hR, metricSamples]
  | deviceStates b =>
    refine ⟨callback_ds_watts_free e b, ?_, ?_, ?_⟩ <;>
      by_cases hS : e.gotStates <;> simp [callback, hS, hR]
  | otherMessage => simp [callback, hR, metricSamples]

theorem runStream_after_realtime (e : callbackContainer)
    (msgs : List Message) (t : Bool) (hR : e.gotRealtime = true) :
    metricSamples .deviceWatts (runStream e msgs t).samples = [] ∧
    (runStream e msgs t).state.seenWatts = e.seenWatts ∧
    (runStream e msgs t).state.devInfo = e.devInfo ∧
    (runStream e msgs t).state.gotRealtime = true := by
  induction msgs generalizing e with
  | nil => exact ⟨rfl, rfl, rfl, hR⟩
  | cons m rest ih =>
    obtain ⟨h1, h2, h3, h4⟩ := callback_after_realtime e m hR
    cases herr : (callback e m).err with
    | none =>
      obtain ⟨g1, g2, g3, g4⟩ := ih (callback e m).state h4
      refine ⟨?_, ?_, ?_, ?_⟩ <;>
        simp [runStream, herr, metricSamples_append, h1, h2, h3, g1,
          g2, g3, g4]
    | some c =>
      cases c with
      | stop =>
        refine ⟨?_, ?_, ?_, ?_⟩ <;> simp [runStream, herr, h1, h2, h3, h4]
      | fail msg =>
        refine ⟨?_, ?_, ?_, ?_⟩ <;> simp [runStream, herr, h1, h2, h3, h4]

theorem firstRealtime_mem (msgs : List Message) (u : RealtimeUpdate)
    (h : firstRealtime msgs = some u) : Message.realtimeUpdate u ∈ msgs := by
  induction msgs with
  | nil => cases h
  | cons m rest ih =>
    cases m with
    | realtimeUpdate u' =>
      simp only [firstRealtime, Option.some.injEq] at h
      simp [h]
    | deviceStates b =>
      simp only [firstRealtime] at h
      simp [ih h]
    | otherMessage =>
      simp only [firstRealtime] at h
      simp [ih h]

theorem wattsFor_eq (id : String) (l : List Sample) :
    wattsFor id l =
      (metricSamples .deviceWatts l).filter fun s =>
        s.labels.head? == some id := by
  induction l with
  | nil => rfl
  | cons s l ih =>
    by_cases hm : (s.metric == MetricName.deviceWatts) = true <;>
      by_cases hh : (s.labels.head? == some id) = true <;>
      simp only [Bool.not_eq_true] at hm hh <;>
      simp [wattsFor, metricSamples, List.filter_cons, hm, hh] at ih ⊢ <;>
      simpa [wattsFor, metricSamples] using ih

/-- The `device_watts` samples and the seen-set a stream run produces,
from a state that has not yet consumed a Realtime Update: they come
exactly from the first Realtime Update of the message list, if any. -/
theorem runStream_realtime_watts (e : callbackContainer)
    (msgs : List Message) (t : Bool) (hR : e.gotRealtime = false) :
    metricSamples .deviceWatts (runStream e msgs t).samples =
      (match firstRealtime msgs with
       | none => []
       | some u => u.devices.map fun d =>
           (⟨.deviceWatts, deviceLabels e.devInfo d.id, d.w⟩ : Sample)) ∧
    (runStream e msgs t).state.seenWatts =
      e.seenWatts ++
      (match firstRealtime msgs with
       | none => []
       | some u => u.devices.map RtDevice.id) ∧
    (runStream e msgs t).state.devInfo = e.devInfo := by
  induction msgs generalizing e with
  | nil => exact ⟨rfl, by simp [runStream, firstRealtime], rfl⟩
  | cons m rest ih =>
    cases m with
    | realtimeUpdate u =>
      have hdev : metricSamples .deviceWatts (u.devices.map fun d =>
          (⟨.deviceWatts, deviceLabels e.devInfo d.id, d.w⟩ : Sample)) =
          u.devices.map fun d =>
            (⟨.deviceWatts, deviceLabels e.devInfo d.id, d.w⟩ : Sample) :=
        filter_map_all _ _ _ fun _ => rfl
      have hvol : metricSamples .deviceWatts (u.voltage.enum.map fun p =>
          (⟨.volts, [Nat.repr p.1], p.2⟩ : Sample)) = [] :=
        filter_map_none _ _ _ fun _ => rfl
      have htail : metricSamples .deviceWatts
          [(⟨.watts, [], u.w⟩ : Sample), ⟨.hz, [], u.hz⟩] = [] := rfl
      have hsmp : (callback e (.realtimeUpdate u)).samples =
          (u.devices.map fun d =>
            (⟨.deviceWatts, deviceLabels e.devInfo d.id, d.w⟩ : Sample)) ++
          ((u.voltage.enum.map fun p =>
            (⟨.volts, [Nat.repr p.1], p.2⟩ : Sample)) ++
           [⟨.watts, [], u.w⟩, ⟨.hz, [], u.hz⟩]) := by
        simp [callback, hR]
      have hmet : metricSamples .deviceWatts
          (callback e (.realtimeUpdate u)).samples =
          u.devices.map fun d =>
            (⟨.deviceWatts, deviceLabels e.devInfo d.id, d.w⟩ : Sample) := by
        rw [hsmp, metricSamples_append, metricSamples_append, hdev, hvol,
          htail]
        simp
      have hst : (callback e (.realtimeUpdate u)).state =
          { e with gotRealtime := true,
                   seenWatts := e.seenWatts ++ u.devices.map RtDevice.id } := by
        simp [callback, hR]
      by_cases hS : e.gotStates
      · have herr : (callback e (.realtimeUpdate u)).err = some .stop := by
          simp [callback, hR, hS]
        refine ⟨?_, ?_, ?_⟩ <;> simp only [runStream, herr]
        · simp [hmet, firstRealtime]
        · rw [hst]
          simp [firstRealtime]
        · rw [hst]
      · have herr : (callback e (.realtimeUpdate u)).err = none := by
          simp [callback, hR, hS]
        obtain ⟨g1, g2, g3, _⟩ := runStream_after_realtime
          (callback e (.realtimeUpdate u)).state rest t (by simp [callback, hR])
        refine ⟨?_, ?_, ?_⟩ <;> simp only [runStream, herr]
        · rw [show metricSamples .deviceWatts
              ((callback e (.realtimeUpdate u)).samples ++
               (runStream (callback e (.realtimeUpdate u)).state rest
                  t).samples) = _ from metricSamples_append _ _ _,
            hmet, g1]
          simp [firstRealtime]
        · rw [g2, hst]
          simp [firstRealtime]
        · rw [g3, hst]
    | deviceStates b =>
      by_cases hS : e.gotStates
      · have hcb : callback e (.deviceStates b) = ⟨e, [], none⟩ := by
          simp [callback, hS]
        obtain ⟨g1, g2, g3⟩ := ih e hR
        refine ⟨?_, ?_, ?_⟩ <;>
          simp [runStream, hcb, firstRealtime, metricSamples_append,
            g1, g2, g3]
      · have hfree := callback_ds_watts_free e b
        have hst : (callback e (.deviceStates b)).state =
            { e with gotStates := true } := by
          simp [callback, hS]
        have herr : (callback e (.deviceStates b)).err = none := by
          simp [callback, hS, hR]
        obtain ⟨g1, g2, g3⟩ := ih { e with gotStates := true } hR
        refine ⟨?_, ?_, ?_⟩ <;> simp only [runStream, herr]
        · rw [show metricSamples .deviceWatts
              ((callback e (.deviceStates b)).samples ++
               (runStream (callback e (.deviceStates b)).state rest
                  t).samples) = _ from metricSamples_append _ _ _,
            hfree, hst, g1]
          simp [firstRealtime]
        · rw [hst, g2]
          simp [firstRealtime]
        · rw [hst, g3]
    | otherMessage =>
      have hcb : callback e .otherMessage = ⟨e, [], none⟩ := by
        simp [callback, hR]
      obtain ⟨g1, g2, g3⟩ := ih e hR
      refine ⟨?_, ?_, ?_⟩ <;>
        simp [runStream, hcb, firstRealtime, metricSamples_append,
          g1, g2, g3]

theorem some_beq_some (a b : String) : (some a == some b) = (a == b) := rfl

theorem wattsFor_append (id : String) (l1 l2 : List Sample) :
    wattsFor id (l1 ++ l2) = wattsFor id l1 ++ wattsFor id l2 :=
  List.filter_append _ _

theorem wattsFor_map_samples {α : Type} (f : α → String) (g : α → Sample)
    (l : List α) (id : String)
    (hg : ∀ x, (g x).metric = MetricName.deviceWatts ∧
      (g x).labels.head? = some (f x)) :
    wattsFor id (l.map g) = (l.filter fun x => f x == id).map g := by
  induction l with
  | nil => rfl
  | cons a l ih =>
    have hp : ((g a).metric == MetricName.deviceWatts &&
        ((g a).labels.head? == some id)) = (f a == id) := by
      rw [(hg a).1, (hg a).2, some_beq_some]
      simp
    by_cases hfa : (f a == id) = true
    · simp [wattsFor, List.filter_cons, hp, hfa] at ih ⊢
      simpa [wattsFor] using ih
    · simp only [Bool.not_eq_true] at hfa
      simp [wattsFor, List.filter_cons, hp, hfa] at ih ⊢
      simpa [wattsFor] using ih

theorem wattsFor_backfill (DI : List (String × Device))
    (devs : List Device) (seen : List String) (d : Device) (hd : d ∈ devs)
    (h2 : (devs.map Device.id).Nodup) :
    wattsFor d.id (backfillSamples DI devs seen) =
      if seen.contains d.id = true then []
      else [⟨.deviceWatts, deviceLabels DI d.id, 0⟩] := by
  rw [backfillSamples,
    wattsFor_map_samples Device.id
      (fun d' => (⟨.deviceWatts, deviceLabels DI d'.id, 0⟩ : Sample))
      (devs.filter fun d' => !(seen.contains d'.id)) d.id
      (fun x => ⟨rfl, rfl⟩),
    filter_swap, filter_key_unique Device.id devs h2 d hd]
  cases hc : seen.contains d.id with
  | true =>
    have hc' : d.id ∈ seen := by simpa using hc
    simp [List.filter_cons, hc, hc']
  | false =>
    have hc' : d.id ∉ seen := by simpa using hc
    simp [List.filter_cons, hc, hc']

/-! ### Claim theorems -/

/-- C1: every collection run emits exactly one `up` sample and exactly
one `scrape_time_seconds` sample, whatever the catalog fetch and stream
do, and the `up` sample carries value 1 exactly when both the catalog
fetch and the stream succeeded, 0 otherwise. -/
theorem collect_up_scrape_unique (inp : CollectInput) :
    countMetric .up (Collect inp).samples = 1 ∧
    countMetric .scrapeTime (Collect inp).samples = 1 ∧
    metricSamples .up (Collect inp).samples =
      [⟨.up, [],
        if inp.catalog.isSome && streamSucceeded inp then 1 else 0⟩] ∧
    metricSamples .scrapeTime (Collect inp).samples =
      [⟨.scrapeTime, [], inp.scrapeSecs⟩] := by
  obtain ⟨cat, msgs, t, secs⟩ := inp
  cases cat with
  | none => exact ⟨rfl, rfl, rfl, rfl⟩
  | some devices =>
    have hU : metricSamples .up
        (Collect ⟨some devices, msgs, t, secs⟩).samples =
        [⟨.up, [],
          if (runStream (initCallback devices) msgs t).errored
          then (0 : Rat) else 1⟩] := by
      simp only [Collect, metricSamples_append]
      rw [runStream_up_free, backfill_up_free]
      rfl
    have hS : metricSamples .scrapeTime
        (Collect ⟨some devices, msgs, t, secs⟩).samples =
        [⟨.scrapeTime, [], secs⟩] := by
      simp only [Collect, metricSamples_append]
      rw [runStream_scrape_free, backfill_scrape_free]
      rfl
    refine ⟨?_, ?_, ?_, hS⟩
    · simp [countMetric, hU]
    · simp [countMetric, hS]
    · rw [hU]
      cases herr : (runStream (initCallback devices) msgs t).errored <;>
        simp [streamSucceeded, herr]

/-- C2: when the catalog fetch fails, the collection emits exactly the
`up = 0` and `scrape_time_seconds` samples, none of the device or
monitor metrics, and never invokes the stream subscription. -/
theorem collect_catalog_error (msgs : List Message) (t : Bool)
    (secs : Rat) :
    (Collect ⟨none, msgs, t, secs⟩).samples =
      [⟨.up, [], 0⟩, ⟨.scrapeTime, [], secs⟩] ∧
    (Collect ⟨none, msgs, t, secs⟩).streamCalled = false ∧
    countMetric .deviceWatts (Collect ⟨none, msgs, t, secs⟩).samples = 0 ∧
    countMetric .active (Collect ⟨none, msgs, t, secs⟩).samples = 0 ∧
    countMetric .online (Collect ⟨none, msgs, t, secs⟩).samples = 0 ∧
    countMetric .watts (Collect ⟨none, msgs, t, secs⟩).samples = 0 ∧
    countMetric .hz (Collect ⟨none, msgs, t, secs⟩).samples = 0 ∧
    countMetric .volts (Collect ⟨none, msgs, t, secs⟩).samples = 0 := by
  exact ⟨rfl, rfl, rfl, rfl, rfl, rfl, rfl, rfl⟩

/-- C3 (amended): for a collection whose catalog fetch and stream both
succeed, provided the catalog's device ids are pairwise distinct and
every Realtime Update reports each device id at most once, `up` is 1 and
every catalog device has exactly one `device_watts` sample: the streamed
sample when the first Realtime Update reported that id, otherwise a
zero-valued backfill sample with that device's labels. -/
theorem collect_watts_exactly_one (inp : CollectInput) (devs : List Device)
    (h1 : inp.catalog = some devs)
    (h2 : (devs.map Device.id).Nodup)
    (h3 : ∀ m ∈ inp.msgs, ruIdsNodup m)
    (h4 : streamSucceeded inp = true) :
    metricSamples .up (Collect inp).samples = [⟨.up, [], 1⟩] ∧
    ∀ d ∈ devs,
      (wattsFor d.id (Collect inp).samples).length = 1 ∧
      wattsFor d.id (Collect inp).samples =
        (match firstRealtime inp.msgs with
         | none =>
           [⟨.deviceWatts, deviceLabels (buildDevInfo devs) d.id, 0⟩]
         | some u =>
           if (u.devices.map RtDevice.id).contains d.id
           then (u.devices.filter fun rd => rd.id == d.id).map fun rd =>
             (⟨.deviceWatts, deviceLabels (buildDevInfo devs) rd.id,
               rd.w⟩ : Sample)
           else
             [⟨.deviceWatts, deviceLabels (buildDevInfo devs) d.id, 0⟩]) := by
  obtain ⟨cat, msgs, t, secs⟩ := inp
  simp only at h1 h3 h4 ⊢
  subst h1
  have herr : (runStream (initCallback devs) msgs t).errored = false := by
    simpa [streamSucceeded] using h4
  obtain ⟨w1, w2, w3⟩ :=
    runStream_realtime_watts (initCallback devs) msgs t rfl
  have hok : (if (runStream (initCallback devs) msgs t).errored = true
      then (0 : Rat) else 1) = 1 := by simp [herr]
  have hsamp : (Collect ⟨some devs, msgs, t, secs⟩).samples =
      (runStream (initCallback devs) msgs t).samples ++
      backfillSamples (buildDevInfo devs) devs
        (runStream (initCallback devs) msgs t).state.seenWatts ++
      [⟨.up, [], 1⟩, ⟨.scrapeTime, [], secs⟩] := by
    simp only [Collect]
    rw [hok]
  constructor
  · rw [hsamp, metricSamples_append, metricSamples_append,
      runStream_up_free, backfill_up_free]
    rfl
  · intro d hd
    have hstream : wattsFor d.id
        (runStream (initCallback devs) msgs t).samples =
        (match firstRealtime msgs with
         | none => []
         | some u =>
           (u.devices.filter fun rd => rd.id == d.id).map fun rd =>
             (⟨.deviceWatts, deviceLabels (buildDevInfo devs) rd.id,
               rd.w⟩ : Sample)) := by
      rw [wattsFor_eq, w1]
      cases hfr : firstRealtime msgs with
      | none => rfl
      | some u =>
        rw [filter_map_comm]
        rfl
    have hback := wattsFor_backfill (buildDevInfo devs) devs
      (runStream (initCallback devs) msgs t).state.seenWatts d hd h2
    have hseen : (runStream (initCallback devs) msgs t).state.seenWatts =
        (match firstRealtime msgs with
         | none => ([] : List String)
         | some u => u.devices.map RtDevice.id) := by
      rw [w2]
      rfl
    rw [hseen] at hback
    have hsplit : wattsFor d.id
        (Collect ⟨some devs, msgs, t, secs⟩).samples =
        wattsFor d.id (runStream (initCallback devs) msgs t).samples ++
        wattsFor d.id (backfillSamples (buildDevInfo devs) devs
          (runStream (initCallback devs) msgs t).state.seenWatts) := by
      rw [hsamp, wattsFor_append, wattsFor_append]
      have htail : wattsFor d.id
          [(⟨.up, [], 1⟩ : Sample), ⟨.scrapeTime, [], secs⟩] = [] := rfl
      rw [htail, List.append_nil]
    rw [hseen] at hsplit
    cases hfr : firstRealtime msgs with
    | none =>
      simp only [hfr] at hstream hback hsplit
      rw [hsplit, hstream, hback]
      simp
    | some u =>
      have hru : (u.devices.map RtDevice.id).Nodup := by
        simpa [ruIdsNodup] using h3 _ (firstRealtime_mem msgs u hfr)
      simp only [hfr] at hstream hback hsplit
      cases hc : (u.devices.map RtDevice.id).contains d.id with
      | true =>
        have hmem : d.id ∈ u.devices.map RtDevice.id := by simpa using hc
        obtain ⟨rd, hrdmem, hrdid⟩ := List.mem_map.mp hmem
        have hfilt : (u.devices.filter fun rd' => rd'.id == d.id) = [rd] := by
          rw [← hrdid]
          exact filter_key_unique RtDevice.id u.devices hru rd hrdmem
        rw [hc] at hback
        simp only [if_true] at hback
        rw [hsplit, hstream, hback, hfilt]
        have hex : ∃ a ∈ u.devices, a.id = d.id := ⟨rd, hrdmem, hrdid⟩
        simp [hex, hfilt]
      | false =>
        have hnot : d.id ∉ u.devices.map RtDevice.id := by simpa using hc
        have hfilt : (u.devices.filter fun rd' => rd'.id == d.id) = [] :=
          filter_key_absent RtDevice.id u.devices d.id hnot
        rw [hc] at hback
        simp only [Bool.false_eq_true, if_false] at hback
        rw [hsplit, hstream, hback, hfilt]
        have hex : ¬ ∃ a ∈ u.devices, a.id = d.id := by
          rintro ⟨a, ha, haid⟩
          exact hnot (haid ▸ List.mem_map_of_mem RtDevice.id ha)
        simp [hex]

/-- C3 witness: catalog devices D1 and D2, the stream reports only D1 at
25.5 W; D2 gets exactly one zero-backfilled sample with its catalog
labels. -/
theorem collect_watts_exactly_one_witness :
    wattsFor "D2" (Collect ⟨some [⟨"D1", "n1", "t1", "mk1", "md1"⟩,
        ⟨"D2", "n2", "t2", "mk2", "md2"⟩],
      [.realtimeUpdate ⟨100, 60, [], [⟨"D1", 25.5⟩]⟩], false, 2⟩).samples =
      [⟨.deviceWatts, ["D2", "n2", "t2", "mk2", "md2"], 0⟩] := by
  have h := ((collect_watts_exactly_one
    ⟨some [⟨"D1", "n1", "t1", "mk1", "md1"⟩,
           ⟨"D2", "n2", "t2", "mk2", "md2"⟩],
      [.realtimeUpdate ⟨100, 60, [], [⟨"D1", 25.5⟩]⟩], false, 2⟩
    [⟨"D1", "n1", "t1", "mk1", "md1"⟩, ⟨"D2", "n2", "t2", "mk2", "md2"⟩]
    rfl (by decide) (by decide) rfl).2
    ⟨"D2", "n2", "t2", "mk2", "md2"⟩ (by decide)).2
  exact h.trans (by decide)

/-- C3 counterexample to the claim as stated: a successful collection
(up = 1) in which the single catalog device "a" is reported twice by the
Realtime Update and therefore receives two `device_watts` samples, not
exactly one. -/
theorem collect_duplicate_watts_counterexample :
    streamSucceeded ⟨some [⟨"a", "n", "t", "mk", "md"⟩],
      [.realtimeUpdate ⟨100, 60, [], [⟨"a", 5⟩, ⟨"a", 7⟩]⟩],
      false, 2⟩ = true ∧
    metricSamples .up (Collect ⟨some [⟨"a", "n", "t", "mk", "md"⟩],
      [.realtimeUpdate ⟨100, 60, [], [⟨"a", 5⟩, ⟨"a", 7⟩]⟩],
      false, 2⟩).samples = [⟨.up, [], 1⟩] ∧
    (wattsFor "a" (Collect ⟨some [⟨"a", "n", "t", "mk", "md"⟩],
      [.realtimeUpdate ⟨100, 60, [], [⟨"a", 5⟩, ⟨"a", 7⟩]⟩],
      false, 2⟩).samples).length = 2 := by
  refine ⟨rfl, by decide, by decide⟩

/-- C4: delivering a message of a variant the aggregator has already
consumed changes nothing: the callback returns nil with no samples and
the same state, so a stream run containing the duplicate produces the
same result as the run with the duplicate removed. -/
theorem callback_duplicate_variant_noop (e : callbackContainer)
    (m : Message) (ms : List Message) (t : Bool)
    (h : seenVariant e m = true) :
    callback e m = ⟨e, [], none⟩ ∧
    runStream e (m :: ms) t = runStream e ms t := by
  have hcb : callback e m = ⟨e, [], none⟩ := by
    cases m with
    | realtimeUpdate u =>
      simp only [seenVariant] at h
      simp [callback, h]
    | deviceStates b =>
      simp only [seenVariant] at h
      simp [callback, h]
    | otherMessage => simp [seenVariant] at h
  refine ⟨hcb, ?_⟩
  simp [runStream, hcb]

/-- C4 witness: a second Realtime Update in a state that has already
seen one is a no-op of the stream run. -/
theorem callback_duplicate_variant_noop_witness :
    callback ⟨true, false, [], []⟩
        (.realtimeUpdate ⟨1, 2, [], [⟨"x", 3⟩]⟩) =
      ⟨⟨true, false, [], []⟩, [], none⟩ ∧
    runStream ⟨true, false, [], []⟩
        [.realtimeUpdate ⟨1, 2, [], [⟨"x", 3⟩]⟩] false =
      runStream ⟨true, false, [], []⟩ [] false :=
  callback_duplicate_variant_noop ⟨true, false, [], []⟩
    (.realtimeUpdate ⟨1, 2, [], [⟨"x", 3⟩]⟩) [] false rfl

/-- C5: from any state the aggregator can be in before it is done (the
states reachable inside one collection), the callback returns the
`realtime.Stop` sentinel exactly when both variant flags are set after
the current message is processed, and nil in every other case. -/
theorem callback_stop_iff_both_seen (e : callbackContainer) (m : Message)
    (h : (e.gotRealtime && e.gotStates) = false) :
    ((callback e m).err = some .stop ↔
      ((callback e m).state.gotRealtime &&
       (callback e m).state.gotStates) = true) ∧
    ((callback e m).err = some .stop ∨ (callback e m).err = none) := by
  cases m <;> cases hR : e.gotRealtime <;> cases hS : e.gotStates <;>
    simp_all [callback]

/-- C5 witness: a first Realtime Update arriving after the Device State
Batch makes both flags set and returns the stop sentinel. -/
theorem callback_stop_iff_both_seen_witness :
    ((callback ⟨false, true, [], []⟩
        (.realtimeUpdate ⟨0, 0, [], []⟩)).err = some .stop ↔
      ((callback ⟨false, true, [], []⟩
          (.realtimeUpdate ⟨0, 0, [], []⟩)).state.gotRealtime &&
       (callback ⟨false, true, [], []⟩
          (.realtimeUpdate ⟨0, 0, [], []⟩)).state.gotStates) = true) ∧
    ((callback ⟨false, true, [], []⟩
        (.realtimeUpdate ⟨0, 0, [], []⟩)).err = some .stop ∨
     (callback ⟨false, true, [], []⟩
        (.realtimeUpdate ⟨0, 0, [], []⟩)).err = none) :=
  callback_stop_iff_both_seen ⟨false, true, [], []⟩
    (.realtimeUpdate ⟨0, 0, [], []⟩) rfl

/-- C10: in every state and for every message the aggregator callback
returns either nil or the `realtime.Stop` sentinel, never any other
error value; and a message outside the two handled variants leaves the
state unchanged and emits nothing. -/
theorem callback_never_errors (e : callbackContainer) (m : Message) :
    ((callback e m).err = none ∨ (callback e m).err = some .stop) ∧
    (callback e .otherMessage).samples = [] ∧
    (callback e .otherMessage).state = e := by
  refine ⟨?_, rfl, rfl⟩
  cases m <;> cases hR : e.gotRealtime <;> cases hS : e.gotStates <;>
    simp [callback, hR, hS]

/-- C8: a first Device State Batch yields, for each entry in order, one
`device_active` sample (1 iff mode = "active") and one `device_online`
sample (1 iff state = "online"), labelled with the catalog metadata of
the entry's device id; an id absent from the catalog gets empty-string
metadata labels; and the call never returns a true error. -/
theorem callback_device_states_samples (e : callbackContainer)
    (b : DeviceStates) (h : e.gotStates = false) :
    (callback e (.deviceStates b)).samples =
      b.states.flatMap (fun d =>
        [⟨.active, deviceLabels e.devInfo d.deviceID,
          if d.mode == "active" then 1 else 0⟩,
         ⟨.online, deviceLabels e.devInfo d.deviceID,
          if d.state == "online" then 1 else 0⟩]) ∧
    (∀ d ∈ b.states, e.devInfo.lookup d.deviceID = none →
      deviceLabels e.devInfo d.deviceID = [d.deviceID, "", "", "", ""]) ∧
    ((callback e (.deviceStates b)).err = none ∨
     (callback e (.deviceStates b)).err = some .stop) := by
  refine ⟨?_, ?_, ?_⟩
  · simp [callback, h]
  · intro d _ hl
    simp [deviceLabels, lookupDev, hl, emptyDevice]
  · cases hR : e.gotRealtime <;> simp [callback, h, hR]

/-- C8 witness: a batch with a catalog device marked active/online and
an unknown device marked inactive/offline yields the four expected
samples, the unknown id with empty metadata labels. -/
theorem callback_device_states_samples_witness :
    (callback ⟨false, false, [("D1", ⟨"D1", "Fridge", "t", "mk", "md"⟩)], []⟩
        (.deviceStates ⟨[⟨"D1", "active", "online"⟩,
                         ⟨"DX", "inactive", "offline"⟩]⟩)).samples =
      [⟨.active, ["D1", "Fridge", "t", "mk", "md"], 1⟩,
       ⟨.online, ["D1", "Fridge", "t", "mk", "md"], 1⟩,
       ⟨.active, ["DX", "", "", "", ""], 0⟩,
       ⟨.online, ["DX", "", "", "", ""], 0⟩] := by
  have h := (callback_device_states_samples
    ⟨false, false, [("D1", ⟨"D1", "Fridge", "t", "mk", "md"⟩)], []⟩
    ⟨[⟨"D1", "active", "online"⟩, ⟨"DX", "inactive", "offline"⟩]⟩ rfl).1
  exact h.trans (by decide)

/-- C9: a first Realtime Update yields exactly one `monitor_volts`
sample per voltage-array index, in index order, with the zero-based
index printed in decimal as the channel label and the reading at that
index as the value. -/
theorem callback_volts_per_channel (e : callbackContainer)
    (u : RealtimeUpdate) (h : e.gotRealtime = false) :
    metricSamples .volts (callback e (.realtimeUpdate u)).samples =
      u.voltage.enum.map fun p =>
        (⟨.volts, [Nat.repr p.1], p.2⟩ : Sample) := by
  have h1 : metricSamples .volts (u.devices.map fun d =>
      (⟨.deviceWatts, deviceLabels e.devInfo d.id, d.w⟩ : Sample)) = [] :=
    filter_map_none _ _ _ fun _ => rfl
  have h2 : metricSamples .volts (u.voltage.enum.map fun p =>
      (⟨.volts, [Nat.repr p.1], p.2⟩ : Sample)) =
      u.voltage.enum.map fun p =>
        (⟨.volts, [Nat.repr p.1], p.2⟩ : Sample) :=
    filter_map_all _ _ _ fun _ => rfl
  have h3 : metricSamples .volts
      [(⟨.watts, [], u.w⟩ : Sample), ⟨.hz, [], u.hz⟩] = [] := rfl
  simp [callback, h, metricSamples_append, h1, h2, h3]

/-- C9 witness: the spec scenario, voltage array [120.5, 119.8] gives
channel "0" at 120.5 and channel "1" at 119.8. -/
theorem callback_volts_per_channel_witness :
    metricSamples .volts (callback ⟨false, false, [], []⟩
        (.realtimeUpdate ⟨100, 60, [120.5, 119.8], []⟩)).samples =
      [⟨.volts, ["0"], 120.5⟩, ⟨.volts, ["1"], 119.8⟩] := by
  have h := callback_volts_per_channel ⟨false, false, [], []⟩
    ⟨100, 60, [120.5, 119.8], []⟩ rfl
  exact h.trans rfl

/-- C7: when the stream subscription returns a true error after some
samples were already emitted, the whole output still contains those
samples unchanged as its leading segment (no rollback), the `up` sample
carries 0, and every catalog device whose id was never marked seen still
receives its zero-valued `device_watts` backfill sample. -/
theorem collect_stream_error_keeps_samples (inp : CollectInput)
    (devs : List Device) (h1 : inp.catalog = some devs)
    (h2 : streamSucceeded inp = false) :
    (Collect inp).samples =
      (runStream (initCallback devs) inp.msgs inp.tailErr).samples ++
      backfillSamples (buildDevInfo devs) devs
        (runStream (initCallback devs) inp.msgs inp.tailErr).state.seenWatts
      ++ [⟨.up, [], 0⟩, ⟨.scrapeTime, [], inp.scrapeSecs⟩] ∧
    ∀ d ∈ devs,
      (runStream (initCallback devs) inp.msgs
          inp.tailErr).state.seenWatts.contains d.id = false →
      (⟨.deviceWatts, deviceLabels (buildDevInfo devs) d.id, 0⟩ : Sample) ∈
        (Collect inp).samples := by
  obtain ⟨cat, msgs, t, secs⟩ := inp
  simp only at h1 h2 ⊢
  subst h1
  have herr : (runStream (initCallback devs) msgs t).errored = true := by
    simpa [streamSucceeded] using h2
  have hok : (if (runStream (initCallback devs) msgs t).errored = true
      then (0 : Rat) else 1) = 0 := by simp [herr]
  have hsamp : (Collect ⟨some devs, msgs, t, secs⟩).samples =
      (runStream (initCallback devs) msgs t).samples ++
      backfillSamples (buildDevInfo devs) devs
        (runStream (initCallback devs) msgs t).state.seenWatts ++
      [⟨.up, [], 0⟩, ⟨.scrapeTime, [], secs⟩] := by
    simp only [Collect]
    rw [hok]
  refine ⟨hsamp, ?_⟩
  intro d hd hseen
  rw [hsamp]
  have hmem : (⟨.deviceWatts, deviceLabels (buildDevInfo devs) d.id, 0⟩ :
      Sample) ∈ backfillSamples (buildDevInfo devs) devs
        (runStream (initCallback devs) msgs t).state.seenWatts := by
    rw [backfillSamples]
    refine List.mem_map.mpr ⟨d, ?_, rfl⟩
    refine List.mem_filter.mpr ⟨hd, ?_⟩
    simpa using hseen
  simp only [List.mem_append]
  exact Or.inl (Or.inr hmem)

/-- C7 witness: catalog devices a and b, the stream reports only a, then
the stream call fails; b's zero backfill sample is still emitted. -/
theorem collect_stream_error_keeps_samples_witness :
    (⟨.deviceWatts, deviceLabels (buildDevInfo
        [⟨"a", "na", "ta", "mka", "mda"⟩, ⟨"b", "nb", "tb", "mkb", "mdb"⟩])
        "b", 0⟩ : Sample) ∈
      (Collect ⟨some [⟨"a", "na", "ta", "mka", "mda"⟩,
          ⟨"b", "nb", "tb", "mkb", "mdb"⟩],
        [.realtimeUpdate ⟨100, 60, [], [⟨"a", 12⟩]⟩], true, 5⟩).samples :=
  (collect_stream_error_keeps_samples
    ⟨some [⟨"a", "na", "ta", "mka", "mda"⟩, ⟨"b", "nb", "tb", "mkb", "mdb"⟩],
      [.realtimeUpdate ⟨100, 60, [], [⟨"a", 12⟩]⟩], true, 5⟩
    [⟨"a", "na", "ta", "mka", "mda"⟩, ⟨"b", "nb", "tb", "mkb", "mdb"⟩]
    rfl rfl).2 ⟨"b", "nb", "tb", "mkb", "mdb"⟩ (by decide) rfl

/-- C6: counter-theorem for the registration loop of ServeHTTP.  With
two monitors 1 and 2, the loop registers the collector of monitor 1
under the namespace of monitor 2 as well (pair (2, 1)), so collectors
are not registered only under their own monitor identifier, and the
namespace labelled 2 holds two collectors, whose identically-named
unlabelled metrics (such as `sense_monitor_up`) then collide. -/
theorem serveHTTP_cross_registration :
    serveHTTPRegistrations [1, 2] = [(1, 1), (2, 1), (2, 2)] ∧
    (2, 1) ∈ serveHTTPRegistrations [1, 2] ∧
    ¬ (∀ p ∈ serveHTTPRegistrations [1, 2], p.1 = p.2) ∧
    ((serveHTTPRegistrations [1, 2]).map Prod.fst).count 2 = 2 := by
  refine ⟨rfl, by decide, by decide, by decide⟩

end SenseExporter
